import Mathlib

/-!
A shallow embedding of src/js/bfcache-manager.js.

The script keeps a single nullable handle `appSocket` and reacts to four
page lifecycle signals (pageshow, pagehide, freeze, resume).  Each handler
is modelled as a pure function from the bridge state to a new state
together with the list of observable actions (console logs, socket
creation, socket close) it performs, in program order.  The line
`appSocket = new WebSocket(WS_URL)` is commented out in the source, so the
embedded `connectWebSocket` issues no `createSocket` action and leaves the
handle unchanged; this is deliberate fidelity to the code as written.

A second, stricter semantics (`connectWebSocketJs`, `closeWebSocketJs`,
and the four handlers built on them) makes every dereference of the
nullable handle explicit and returns an error on a null dereference; it is
used to settle the no-throw claim.
-/

/-- Ready states of a browser WebSocket, named after the constants of the
WebSocket API that the source compares against (`WebSocket.OPEN`). -/
inductive ReadyState : Type
  | CONNECTING : ReadyState
  | OPEN : ReadyState
  | CLOSING : ReadyState
  | CLOSED : ReadyState
deriving DecidableEq, Repr

/-- A connection object as far as this script observes it: the source only
ever reads `readyState` from the handle. -/
structure Conn where
  readyState : ReadyState
deriving DecidableEq, Repr

/-- Observable actions the script can perform, in program order. -/
inductive BridgeAction : Type
  | consoleLog : String → BridgeAction
  | createSocket : String → BridgeAction
  | closeSocket : BridgeAction
deriving DecidableEq, Repr

/-- The whole mutable state of the module: the single nullable variable
`let appSocket = null`. -/
structure BridgeState where
  appSocket : Option Conn
deriving DecidableEq, Repr

/-- The initial state of the module: `appSocket = null`. -/
def initState : BridgeState := BridgeState.mk none

/-- `const WS_URL = ...` from the source (only used in the commented-out
construction, so it never appears in an action). -/
def WS_URL : String := "wss://your-websocket-endpoint.example.com"

def msgAlreadyOpen : String := "[bfcache-manager] WebSocket already open."

def msgConnecting : String := "[bfcache-manager] Connecting WebSocket..."

def msgClosing : String := "[bfcache-manager] Closing WebSocket for page suspension..."

def msgRestored : String := "[bfcache-manager] Page restored from bfcache."

def msgLoaded : String := "[bfcache-manager] Page loaded normally."

def msgHiding : String := "[bfcache-manager] Page hiding. Persisted: "

def msgFreezing : String := "[bfcache-manager] Page freezing."

def msgResuming : String := "[bfcache-manager] Page resuming."

/-- `connectWebSocket` from the source.  The guard
`appSocket && appSocket.readyState === WebSocket.OPEN` returns early when
a handle exists and is open; otherwise the function logs that it is
connecting.  The statement `appSocket = new WebSocket(WS_URL)` is commented
out in the source, so no socket is created and the handle is unchanged. -/
def connectWebSocket : BridgeState → BridgeState × List BridgeAction
  | BridgeState.mk none =>
      (BridgeState.mk none, [BridgeAction.consoleLog msgConnecting])
  | BridgeState.mk (some c) =>
      if c.readyState = ReadyState.OPEN then
        (BridgeState.mk (some c), [BridgeAction.consoleLog msgAlreadyOpen])
      else
        (BridgeState.mk (some c), [BridgeAction.consoleLog msgConnecting])

/-- `closeWebSocket` from the source: if a handle exists, log, call
`appSocket.close()` and set `appSocket = null`; otherwise do nothing. -/
def closeWebSocket : BridgeState → BridgeState × List BridgeAction
  | BridgeState.mk none => (BridgeState.mk none, [])
  | BridgeState.mk (some _) =>
      (BridgeState.mk none, [BridgeAction.consoleLog msgClosing, BridgeAction.closeSocket])

/-- A PageTransitionEvent as far as the script observes it: only the
`persisted` flag is read. -/
structure PageTransitionEvent where
  persisted : Bool
deriving DecidableEq, Repr

/-- `onPageShow` from the source: log depending on `event.persisted`, then
call `connectWebSocket`. -/
def onPageShow (event : PageTransitionEvent) (s : BridgeState) :
    BridgeState × List BridgeAction :=
  ((connectWebSocket s).1,
    BridgeAction.consoleLog (if event.persisted then msgRestored else msgLoaded)
      :: (connectWebSocket s).2)

/-- `onPageHide` from the source: log the `persisted` flag, then call
`closeWebSocket`. -/
def onPageHide (event : PageTransitionEvent) (s : BridgeState) :
    BridgeState × List BridgeAction :=
  ((closeWebSocket s).1,
    BridgeAction.consoleLog (msgHiding ++ toString event.persisted)
      :: (closeWebSocket s).2)

/-- `onFreeze` from the source: log, then call `closeWebSocket`. -/
def onFreeze (s : BridgeState) : BridgeState × List BridgeAction :=
  ((closeWebSocket s).1, BridgeAction.consoleLog msgFreezing :: (closeWebSocket s).2)

/-- `onResume` from the source: log, then call `connectWebSocket`. -/
def onResume (s : BridgeState) : BridgeState × List BridgeAction :=
  ((connectWebSocket s).1,
    BridgeAction.consoleLog msgResuming :: (connectWebSocket s).2)

/-- The platform lifecycle signals the script listens to, with the
`persisted` payload of the two PageTransitionEvents. -/
inductive Signal : Type
  | show : Bool → Signal
  | hide : Bool → Signal
  | freeze : Signal
  | resume : Signal
deriving DecidableEq, Repr

/-- Dispatch one signal to the handler the script registers for it. -/
def handleSignal : Signal → BridgeState → BridgeState × List BridgeAction
  | Signal.show p, s => onPageShow (PageTransitionEvent.mk p) s
  | Signal.hide p, s => onPageHide (PageTransitionEvent.mk p) s
  | Signal.freeze, s => onFreeze s
  | Signal.resume, s => onResume s

/-- Run a sequence of lifecycle signals, accumulating the actions in
order. -/
def runSignals : List Signal → BridgeState → BridgeState × List BridgeAction
  | [], s => (s, [])
  | sig :: rest, s =>
      ((runSignals rest (handleSignal sig s).1).1,
        (handleSignal sig s).2 ++ (runSignals rest (handleSignal sig s).1).2)

/-- Recognise a socket-creation action. -/
def isCreate : BridgeAction → Bool
  | BridgeAction.consoleLog _ => false
  | BridgeAction.createSocket _ => true
  | BridgeAction.closeSocket => false

/-- Recognise a socket-close action. -/
def isClose : BridgeAction → Bool
  | BridgeAction.consoleLog _ => false
  | BridgeAction.createSocket _ => false
  | BridgeAction.closeSocket => true

/-- How many `new WebSocket` constructions a list of actions contains. -/
def createCount (acts : List BridgeAction) : Nat := (acts.filter isCreate).length

/-- How many `close()` calls a list of actions contains. -/
def closeCount (acts : List BridgeAction) : Nat := (acts.filter isClose).length

/-- Number of live connection handles the bridge owns in a state: the
single nullable `appSocket` field holds zero or one. -/
def liveHandles (s : BridgeState) : Nat :=
  match s.appSocket with
  | none => 0
  | some _ => 1

/-- The only runtime error this script could raise on its own: reading a
property of, or calling a method on, a null handle. -/
inductive JsError : Type
  | nullDeref : JsError
deriving DecidableEq, Repr

/-- Dereference the nullable handle, as a JavaScript property access or
method call on `appSocket` would: an error when the handle is null. -/
def jsDeref (o : Option Conn) : Except JsError Conn :=
  match o with
  | none => Except.error JsError.nullDeref
  | some c => Except.ok c

/-- Strict semantics of `connectWebSocket`: the guard
`appSocket && appSocket.readyState === WebSocket.OPEN` short-circuits, so
`readyState` is only read after the null check succeeded. -/
def connectWebSocketJs (s : BridgeState) :
    Except JsError (BridgeState × List BridgeAction) :=
  match s.appSocket with
  | none => Except.ok (s, [BridgeAction.consoleLog msgConnecting])
  | some _ =>
      match jsDeref s.appSocket with
      | Except.error e => Except.error e
      | Except.ok c =>
          if c.readyState = ReadyState.OPEN then
            Except.ok (s, [BridgeAction.consoleLog msgAlreadyOpen])
          else
            Except.ok (s, [BridgeAction.consoleLog msgConnecting])

/-- Strict semantics of `closeWebSocket`: the call `appSocket.close()`
dereferences the handle, but only runs under the `if (appSocket)` guard. -/
def closeWebSocketJs (s : BridgeState) :
    Except JsError (BridgeState × List BridgeAction) :=
  match s.appSocket with
  | none => Except.ok (s, [])
  | some _ =>
      match jsDeref s.appSocket with
      | Except.error e => Except.error e
      | Except.ok _ =>
          Except.ok (BridgeState.mk none,
            [BridgeAction.consoleLog msgClosing, BridgeAction.closeSocket])

/-- Strict semantics of `onPageShow`. -/
def onPageShowJs (event : PageTransitionEvent) (s : BridgeState) :
    Except JsError (BridgeState × List BridgeAction) :=
  match connectWebSocketJs s with
  | Except.error e => Except.error e
  | Except.ok r =>
      Except.ok (r.1,
        BridgeAction.consoleLog (if event.persisted then msgRestored else msgLoaded)
          :: r.2)

/-- Strict semantics of `onPageHide`. -/
def onPageHideJs (event : PageTransitionEvent) (s : BridgeState) :
    Except JsError (BridgeState × List BridgeAction) :=
  match closeWebSocketJs s with
  | Except.error e => Except.error e
  | Except.ok r =>
      Except.ok (r.1,
        BridgeAction.consoleLog (msgHiding ++ toString event.persisted) :: r.2)

/-- Strict semantics of `onFreeze`. -/
def onFreezeJs (s : BridgeState) :
    Except JsError (BridgeState × List BridgeAction) :=
  match closeWebSocketJs s with
  | Except.error e => Except.error e
  | Except.ok r => Except.ok (r.1, BridgeAction.consoleLog msgFreezing :: r.2)

/-- Strict semantics of `onResume`. -/
def onResumeJs (s : BridgeState) :
    Except JsError (BridgeState × List BridgeAction) :=
  match connectWebSocketJs s with
  | Except.error e => Except.error e
  | Except.ok r => Except.ok (r.1, BridgeAction.consoleLog msgResuming :: r.2)

/-! ## Helper lemmas -/

lemma connectWebSocket_state (s : BridgeState) : (connectWebSocket s).1 = s := by
  rcases s with ⟨_ | c⟩
  · rfl
  · by_cases h : c.readyState = ReadyState.OPEN
    · simp only [connectWebSocket, if_pos h]
    · simp only [connectWebSocket, if_neg h]

lemma closeWebSocket_state (s : BridgeState) :
    (closeWebSocket s).1 = BridgeState.mk none := by
  rcases s with ⟨_ | c⟩ <;> rfl

lemma connectWebSocket_filter_create (s : BridgeState) :
    (connectWebSocket s).2.filter isCreate = [] := by
  rcases s with ⟨_ | c⟩
  · rfl
  · by_cases h : c.readyState = ReadyState.OPEN
    · simp only [connectWebSocket, if_pos h]; rfl
    · simp only [connectWebSocket, if_neg h]; rfl

lemma closeWebSocket_filter_create (s : BridgeState) :
    (closeWebSocket s).2.filter isCreate = [] := by
  rcases s with ⟨_ | c⟩ <;> rfl

lemma handleSignal_filter_create (sig : Signal) (s : BridgeState) :
    (handleSignal sig s).2.filter isCreate = [] := by
  cases sig <;>
    simp [handleSignal, onPageShow, onPageHide, onFreeze, onResume,
      List.filter_cons, isCreate, connectWebSocket_filter_create,
      closeWebSocket_filter_create]

lemma runSignals_filter_create (sigs : List Signal) (s : BridgeState) :
    (runSignals sigs s).2.filter isCreate = [] := by
  induction sigs generalizing s with
  | nil => rfl
  | cons sig rest ih =>
      simp [runSignals, List.filter_append, handleSignal_filter_create, ih]

lemma handleSignal_null (sig : Signal) :
    (handleSignal sig initState).1 = initState := by
  cases sig <;> rfl

lemma runSignals_null (sigs : List Signal) :
    (runSignals sigs initState).1 = initState := by
  induction sigs with
  | nil => rfl
  | cons sig rest ih =>
      simp only [runSignals]
      rw [handleSignal_null, ih]

lemma runSignals_fst_append (xs ys : List Signal) (s : BridgeState) :
    (runSignals (xs ++ ys) s).1 = (runSignals ys (runSignals xs s).1).1 := by
  induction xs generalizing s with
  | nil => rfl
  | cons sig rest ih => simp [runSignals, ih]

/-! ## Claim theorems -/

/-- C2: for every sequence of lifecycle signals delivered to the module,
the connection handle `appSocket` remains null, and no WebSocket object is
ever created: `connectWebSocket` never assigns the handle (the
construction is commented out) and `closeWebSocket` only ever clears it. -/
theorem appSocket_always_null (sigs : List Signal) :
    (runSignals sigs initState).1.appSocket = none ∧
    createCount (runSignals sigs initState).2 = 0 := by
  constructor
  · rw [runSignals_null]; rfl
  · simp [createCount, runSignals_filter_create]

/-- C1 evaluation at the failing input: handling a single `show` signal
from the initial state leaves no open connection handle and executes no
WebSocket construction, contrary to the claim that exactly one open handle
exists after a `show` signal. -/
theorem show_leaves_no_handle :
    (runSignals [Signal.show false] initState).1.appSocket = none ∧
    createCount (runSignals [Signal.show false] initState).2 = 0 := by
  exact ⟨rfl, rfl⟩

/-- C3: for every sequence of lifecycle signals and every starting state,
after a `hide` or a `freeze` signal is handled no open connection handle
exists: `onPageHide` and `onFreeze` clear the reference regardless of the
prior state. -/
theorem hide_or_freeze_clears_handle (sigs : List Signal) (s : BridgeState)
    (p : Bool) :
    (runSignals (sigs ++ [Signal.hide p]) s).1.appSocket = none ∧
    (runSignals (sigs ++ [Signal.freeze]) s).1.appSocket = none := by
  constructor <;>
    · rw [runSignals_fst_append]
      simp only [runSignals, handleSignal, onPageHide, onFreeze]
      rw [closeWebSocket_state]

/-- C4 evaluation at the failing input: two consecutive `show` signals
from the initial state execute zero WebSocket constructions, not exactly
one as the claim states — the construction statement is commented out, and
since the handle is never set the guard does not suppress the second
attempt either. -/
theorem double_show_zero_creates :
    createCount (runSignals [Signal.show false, Signal.show false]
      initState).2 = 0 ∧
    (runSignals [Signal.show false, Signal.show false]
      initState).1.appSocket = none := by
  exact ⟨rfl, rfl⟩

/-- C5: a close call is issued only when a handle is present — starting
from any state that holds a live handle, two consecutive `hide` signals
issue exactly one close call (the second is a no-op), and a `freeze`
signal arriving when no handle exists issues no close call at all. -/
theorem close_only_when_handle_present (s : BridgeState) (p q : Bool) :
    (s.appSocket.isSome = true →
      closeCount (runSignals [Signal.hide p, Signal.hide q] s).2 = 1) ∧
    (s.appSocket = none →
      closeCount (runSignals [Signal.freeze] s).2 = 0) := by
  rcases s with ⟨_ | c⟩
  · exact ⟨fun h => by simp at h, fun _ => rfl⟩
  · exact ⟨fun _ => rfl, fun h => by simp at h⟩

/-- Witness for C5 at concrete inputs: a state holding an open handle for
the double-hide part, and the initial (null-handle) state for the freeze
part. -/
theorem close_only_when_handle_present_spot :
    closeCount (runSignals [Signal.hide true, Signal.hide true]
      (BridgeState.mk (some (Conn.mk ReadyState.OPEN)))).2 = 1 ∧
    closeCount (runSignals [Signal.freeze] initState).2 = 0 :=
  ⟨(close_only_when_handle_present
      (BridgeState.mk (some (Conn.mk ReadyState.OPEN))) true true).1 rfl,
   (close_only_when_handle_present initState true true).2 rfl⟩

/-- C6: for every state of the connection handle, handling a `freeze`
signal has exactly the effect of handling a `hide` signal — `onFreeze` and
`onPageHide` leave the handle in the same state and issue the same close
calls (only the console logging differs). -/
theorem onFreeze_matches_onPageHide (s : BridgeState)
    (e : PageTransitionEvent) :
    (onFreeze s).1 = (onPageHide e s).1 ∧
    (onFreeze s).2.filter isClose = (onPageHide e s).2.filter isClose := by
  exact ⟨rfl, rfl⟩

/-- C7: for every state of the connection handle, handling a `resume`
signal has exactly the effect of handling a `show` signal with
persisted=false — `onResume` and `onPageShow` leave the handle in the same
state and issue the same open calls (only the console logging differs). -/
theorem onResume_matches_onPageShow (s : BridgeState) :
    (onResume s).1 = (onPageShow (PageTransitionEvent.mk false) s).1 ∧
    (onResume s).2.filter isCreate =
      (onPageShow (PageTransitionEvent.mk false) s).2.filter isCreate := by
  exact ⟨rfl, rfl⟩

/-- C8: the bridge never throws — under the strict semantics, in which any
dereference of a null handle is an error, every handler succeeds from
every state and agrees with the pure model: the null checks in
`connectWebSocket` and `closeWebSocket` guard every dereference. -/
theorem handlers_never_throw (s : BridgeState) (e : PageTransitionEvent) :
    onPageShowJs e s = Except.ok (onPageShow e s) ∧
    onPageHideJs e s = Except.ok (onPageHide e s) ∧
    onFreezeJs s = Except.ok (onFreeze s) ∧
    onResumeJs s = Except.ok (onResume s) := by
  rcases s with ⟨_ | c⟩
  · exact ⟨rfl, rfl, rfl, rfl⟩
  · refine ⟨?_, rfl, rfl, ?_⟩ <;>
      by_cases h : c.readyState = ReadyState.OPEN <;>
        simp [onPageShowJs, onResumeJs, connectWebSocketJs, jsDeref,
          onPageShow, onResume, connectWebSocket, h]

/-- C9: after any sequence of lifecycle signals from any starting state,
the bridge owns at most one live connection handle — the single nullable
`appSocket` field is the only handle and is replaced or cleared, never
duplicated. -/
theorem at_most_one_live_handle (s : BridgeState) (sigs : List Signal) :
    liveHandles (runSignals sigs s).1 ≤ 1 := by
  rcases hr : (runSignals sigs s).1 with ⟨_ | c⟩ <;> simp [liveHandles]

/-- C10: the handlers do not read the `persisted` flag except for logging —
for any starting state, `onPageShow` with persisted=true and with
persisted=false leave the handle in the same state and issue the same open
calls, and likewise `onPageHide` with the same close calls. -/
theorem persisted_flag_noninterference (s : BridgeState) :
    (onPageShow (PageTransitionEvent.mk true) s).1 =
      (onPageShow (PageTransitionEvent.mk false) s).1 ∧
    (onPageShow (PageTransitionEvent.mk true) s).2.filter isCreate =
      (onPageShow (PageTransitionEvent.mk false) s).2.filter isCreate ∧
    (onPageHide (PageTransitionEvent.mk true) s).1 =
      (onPageHide (PageTransitionEvent.mk false) s).1 ∧
    (onPageHide (PageTransitionEvent.mk true) s).2.filter isClose =
      (onPageHide (PageTransitionEvent.mk false) s).2.filter isClose := by
  exact ⟨rfl, rfl, rfl, rfl⟩
